import Mathlib

/-!
Verification of the TikTokPrinter job-queueing and dispatch subsystem.

Shallow embedding of:
* `TikTokPrinter/types/objects.py` — the job model (`CollectionItem`,
  `PrinterCollection`, `PrinterImage`, `PrinterText`, `VoiceText`, `SoundFile`);
* `TikTokPrinter/client/printer/engine.py` — `PrinterEngine` (the output
  router): `__set_formatting`, `image`, `text`, `voice`, `sound`;
* `TikTokPrinter/client/printer/interface.py` — `PrinterInterface`:
  `queue`, `__printer_loop`, `__print_content`, `start`, `stop`;
* `TikTokPrinter/client/engines/voice.py` — `VoiceEngine`: `speak`,
  `__speak_loop`, `start`, `stop`;
* `TikTokPrinter/client/engines/sound.py` — `SoundEngine.play`.

External backends (escpos printer, PIL, pyttsx3, playsound, the file system)
are modelled as observable events / oracles: every call the code makes into a
backend primitive is recorded as an `Event` in dispatch order.
-/

namespace TikTokPrinter

/-- A bitmap, modelling a PIL `Image.Image` as its pixel matrix
(list of rows, each row a list of pixel values). -/
def Bitmap : Type := List (List Nat)

instance : DecidableEq Bitmap := by unfold Bitmap; infer_instance

/-- PIL `ImageOps.mirror`: flip the image horizontally (left to right),
i.e. reverse each row of the pixel matrix. External primitive. -/
def ImageOps.mirror (b : Bitmap) : Bitmap := List.map List.reverse b

/-- PIL `ImageOps.flip`: flip the image vertically (top to bottom),
i.e. reverse the order of the rows. External primitive. -/
def ImageOps.flip (b : Bitmap) : Bitmap := List.reverse b

/-- The 180-degree rotation of a bitmap, stated from the spec's words:
"180° rotation, i.e., horizontal + vertical mirror" — the pixel at
row `i`, column `j` moves to row `h-1-i`, column `w-1-j`, which on the
matrix is: reverse the row order and reverse every row. -/
def rotate180 (b : Bitmap) : Bitmap := List.reverse (List.map List.reverse b)

/-- `TikTokPrinter.types.objects.CollectionItem` and its dataclass variants.
In Python any object can be placed in a `PrinterCollection`'s list; the
`foreign` constructor stands for a queued object that is none of the four
recognized variants (`PrinterImage`, `PrinterText`, `SoundFile`, `VoiceText`).
A `PrinterImage`'s `content` field may hold anything; only a PIL image is
valid, so it is embedded as `Option Bitmap` with `none` for an absent or
invalid (non-`Image.Image`) value. -/
inductive CollectionItem : Type
  | printerImage (content : Option Bitmap) (padding : Bool)
  | printerText (content : String) (bold : Bool)
  | voiceText (content : String)
  | soundFile (filePath : String)
  | foreign (descr : String)
  deriving DecidableEq

/-- `PrinterCollection`: an ordered batch of collection items. -/
structure PrinterCollection : Type where
  content : List CollectionItem
  deriving DecidableEq

/-- The escpos formatting configuration held by `EscposEngine`
(`__process_kwargs` in `engines/escpos.py`). -/
structure EscposConfig : Type where
  align : String := "left"
  font : String := "a"
  text_type : String := "normal"
  width : Nat := 1
  height : Nat := 1
  density : Nat := 9
  invert : Bool := false
  smooth : Bool := false
  flip : Bool := false
  deriving DecidableEq

/-- Errors raised by the dispatch path
(`TikTokPrinter/types/errors.py` plus Python built-ins). -/
inductive PrinterError : Type
  | invalidImageObject (msg : String)
  | invalidPrinterObject (msg : String)
  | fileNotFoundError (msg : String)
  deriving DecidableEq

/-- An observable call into an external backend primitive, recorded in the
order the code performs it. -/
inductive Event : Type
  | escposSet (cfg : EscposConfig)
  | escposText (s : String)
  | escposImage (b : Bitmap)
  | soundPlay (filePath : String)
  | voiceSpeak (text : String)
  | logError (e : PrinterError)
  deriving DecidableEq

/-- Helper for `pySplit`: walk the characters, cutting at each separator;
`acc` holds the current chunk reversed. -/
def splitCharAux (sep : Char) : List Char → List Char → List (List Char)
  | [], acc => [acc.reverse]
  | c :: cs, acc =>
    if c = sep then acc.reverse :: splitCharAux sep cs []
    else splitCharAux sep cs (c :: acc)

/-- Python `str.split(sep)` for a one-character separator (as used by the
source: `content.split("\n")`): cut the string at every occurrence of `sep`,
keeping empty chunks, yielding `[""]` for the empty string. -/
def pySplit (s : String) (sep : Char) : List String :=
  (splitCharAux sep s.toList []).map String.mk

/-- Python `str.replace(old, new)` for one-character `old` and `new` (as used
by the source: `content.replace("\n", " ")`). -/
def pyReplaceChar (s : String) (oldc newc : Char) : String :=
  String.mk (s.toList.map fun c => if c = oldc then newc else c)

/-- `PrinterEngine.__set_formatting`: resolve the `text_type` (a string bold
override wins over the saved configuration) and push the whole configuration
to the backend via `escpos.set`. -/
def setFormatting (cfg : EscposConfig) (boldOverride : Option String) : List Event :=
  let textType : String :=
    match boldOverride with
    | some s => s
    | none => cfg.text_type
  [Event.escposSet { cfg with text_type := textType }]

/-- `PrinterEngine.text`: apply formatting (with a `"B"` override when the
job's bold flag is set), split the content on `"\n"`, and print each line
through `escpos.text(line + "\n")`. -/
def PrinterEngine.text (cfg : EscposConfig) (content : String) (bold : Bool) : List Event :=
  setFormatting cfg (if bold then some "B" else none) ++
    (pySplit content '\n').map (fun line => Event.escposText (line ++ "\n"))

/-- Message of `InvalidImageObject` raised by `PrinterEngine.image`. -/
def invalidImageMsg : String :=
  "Provided image is invalid and is of type NoneType. Image will be skipped."

/-- `PrinterEngine.image`: raise `InvalidImageObject` when the content is not
a PIL image; otherwise flip the bitmap manually when the configuration's
`flip` is set (escpos only flips text), apply formatting, print an optional
leading padding line, the image, a mandatory trailing blank line, and an
optional trailing padding line. -/
def PrinterEngine.image (cfg : EscposConfig) (content : Option Bitmap) (padding : Bool) :
    Except PrinterError (List Event) :=
  match content with
  | none => Except.error (PrinterError.invalidImageObject invalidImageMsg)
  | some b =>
    let content' : Bitmap := if cfg.flip then ImageOps.flip (ImageOps.mirror b) else b
    Except.ok <|
      setFormatting cfg none ++
      (if padding then PrinterEngine.text cfg "" false else []) ++
      [Event.escposImage content'] ++
      PrinterEngine.text cfg "" false ++
      (if padding then PrinterEngine.text cfg "" false else [])

/-- `PrinterEngine.voice`: replace line breaks by spaces and enqueue the
utterance on the voice engine (`self._voice.speak(content)`). -/
def PrinterEngine.voice (content : String) : List Event :=
  [Event.voiceSpeak (pyReplaceChar content '\n' ' ')]

/-- Message of the `FileNotFoundError` raised by `SoundEngine.play`. -/
def soundMissingMsg : String := "Could not find the requested sound file"

/-- `SoundEngine.play`: check `os.path.exists(file_path)` against the file
system (modelled as the list `fs` of existing paths); raise
`FileNotFoundError` when absent, otherwise hand the path to the blocking
`playsound` primitive on an executor. -/
def SoundEngine.play (fs : List String) (filePath : String) :
    Except PrinterError (List Event) :=
  if fs.contains filePath then
    Except.ok [Event.soundPlay filePath]
  else
    Except.error (PrinterError.fileNotFoundError soundMissingMsg)

/-- Message of `InvalidPrinterObject` raised by
`PrinterInterface.__print_content` for an unrecognized queue object. -/
def invalidObjectMsg (descr : String) : String :=
  "Invalid object of type " ++ descr ++ " passed to _printer queue."

/-- Dispatch of one collection item inside `PrinterInterface.__print_content`'s
`for` loop. A `PrinterImage` is dispatched inside its own `try/except`: an
error from `PrinterEngine.image` is logged and the loop continues. The other
recognized variants are dispatched bare, so an error they raise propagates out
of `__print_content`. An unrecognized object raises `InvalidPrinterObject`.
Result: the events this item emitted, or the error that escaped the loop body. -/
def printContentItem (cfg : EscposConfig) (fs : List String) (item : CollectionItem) :
    Except PrinterError (List Event) :=
  match item with
  | CollectionItem.printerImage content padding =>
    match PrinterEngine.image cfg content padding with
    | Except.ok evs => Except.ok evs
    | Except.error e => Except.ok [Event.logError e]
  | CollectionItem.printerText content bold =>
    Except.ok (PrinterEngine.text cfg content bold)
  | CollectionItem.soundFile filePath => SoundEngine.play fs filePath
  | CollectionItem.voiceText content => Except.ok (PrinterEngine.voice content)
  | CollectionItem.foreign descr =>
    Except.error (PrinterError.invalidPrinterObject (invalidObjectMsg descr))

/-- `PrinterInterface.__print_content`: dispatch the collection's items in
order. An error escaping one item's dispatch aborts the remaining items of
the collection (the Python exception propagates out of the `for` loop).
Result: the events emitted before the abort, and the escaped error if any. -/
def printContent (cfg : EscposConfig) (fs : List String) :
    List CollectionItem → List Event × Option PrinterError
  | [] => ([], none)
  | item :: rest =>
    match printContentItem cfg fs item with
    | Except.error e => ([], some e)
    | Except.ok evs =>
      let r := printContent cfg fs rest
      (evs ++ r.1, r.2)

/-- One collection's dispatch as seen from `PrinterInterface.__printer_loop`:
`__print_content` runs under `try/except`, so an error it raises is logged
(`logging.error(traceback.format_exc())`) and the loop survives. -/
def collectionEvents (cfg : EscposConfig) (fs : List String)
    (collection : PrinterCollection) : List Event :=
  let r := printContent cfg fs collection.content
  r.1 ++ (match r.2 with
    | some e => [Event.logError e]
    | none => [])

/-- One tick of `PrinterInterface.__printer_loop` on a running interface:
if the queue is empty do nothing, otherwise pop the head collection
(`self._queue.pop(0)`) and dispatch it. Returns the remaining queue and
the events of the tick. -/
def printerTick (cfg : EscposConfig) (fs : List String)
    (queue : List PrinterCollection) : List PrinterCollection × List Event :=
  match queue with
  | [] => ([], [])
  | first :: rest => (rest, collectionEvents cfg fs first)

/-- `n` consecutive ticks of `PrinterInterface.__printer_loop`, collecting
the backend events in order. -/
def printerRun (cfg : EscposConfig) (fs : List String) :
    List PrinterCollection → Nat → List Event
  | _, 0 => []
  | queue, Nat.succ n =>
    let r := printerTick cfg fs queue
    r.2 ++ printerRun cfg fs r.1 n

/-- Python `list.insert(i, x)` for a non-negative index `i`: insert before
position `i`, clamping to the end when `i` exceeds the length. -/
def pyInsert {α : Type} (l : List α) (i : Nat) (x : α) : List α :=
  l.take i ++ x :: l.drop i

/-- `PrinterInterface.queue(collection, index)`: append when the index is
negative, otherwise `list.insert(index, collection)`. -/
def PrinterInterface.queue (q : List PrinterCollection)
    (collection : PrinterCollection) (index : Int) : List PrinterCollection :=
  if index < 0 then q ++ [collection]
  else pyInsert q index.toNat collection

/-- A Python `AttributeError` (`'NoneType' object has no attribute 'cancel'`),
raised when a method is called on `None`. -/
inductive PyError : Type
  | attributeError (msg : String)
  deriving DecidableEq

/-- The scheduler-relevant state of a `PrinterInterface` (or, identically, a
`VoiceEngine`): the private `__running` flag and the `_task` handle, which is
`none` both initially and after `stop()` sets it back to `None`. The task
handle carries no data of its own. -/
structure SchedulerState : Type where
  running : Bool := false
  task : Option Unit := none
  deriving DecidableEq

/-- `PrinterInterface.start` / `VoiceEngine.start`: create the loop task and
set the running flag. -/
def SchedulerState.start (st : SchedulerState) : SchedulerState :=
  { st with task := some (), running := true }

/-- `PrinterInterface.stop` (and, line for line, `VoiceEngine.stop`): clear
the running flag, then call `self._task.cancel(...)` — which raises
`AttributeError` when `_task` is `None` — then set `_task = None`. -/
def SchedulerState.stop (st : SchedulerState) : Except PyError SchedulerState :=
  let st1 : SchedulerState := { st with running := false }
  match st1.task with
  | none => Except.error (PyError.attributeError
      "'NoneType' object has no attribute 'cancel'")
  | some _ => Except.ok { st1 with task := none }

/-- The state of a `VoiceEngine`'s queue and of its `__speak_loop`-local
`thread` variable. `alive = some u` means the last-started synthesis thread —
speaking utterance `u` — is still running (`thread.is_alive()` is true);
`alive = none` means no live thread (never started, or finished). -/
structure VoiceState : Type where
  queue : List String := []
  alive : Option String := none
  deriving DecidableEq

/-- Observable voice-worker events: `speak` is a producer call appending to
the FIFO; `start u` is the spawn of a synthesis thread
(`Thread(target=_speak, args=(u,)).start()`); `finish u` is that thread's
completion (after which `is_alive()` turns false). -/
inductive VEvent : Type
  | speak (text : String)
  | start (text : String)
  | finish (text : String)
  deriving DecidableEq

/-- One tick of `VoiceEngine.__speak_loop`: if the queue is empty, continue;
if the last-started thread exists and is alive, continue (no new utterance);
otherwise pop the head of the FIFO and start a synthesis thread on it. -/
def VoiceEngine.pollTick (st : VoiceState) : VoiceState × List VEvent :=
  match st.queue with
  | [] => (st, [])
  | u :: rest =>
    match st.alive with
    | some _ => (st, [])
    | none => (⟨rest, some u⟩, [VEvent.start u])

/-- The reachable states and traces of a `VoiceEngine`: from the initial
state, any interleaving of producer `speak` calls, poll-loop ticks, and
completions of the currently live synthesis thread. -/
inductive VoiceReachable : VoiceState → List VEvent → Prop
  | init : VoiceReachable {} []
  | speak (u : String) (st : VoiceState) (tr : List VEvent) :
      VoiceReachable st tr →
      VoiceReachable { st with queue := st.queue ++ [u] } (tr ++ [VEvent.speak u])
  | poll (st : VoiceState) (tr : List VEvent) :
      VoiceReachable st tr →
      VoiceReachable (VoiceEngine.pollTick st).1 (tr ++ (VoiceEngine.pollTick st).2)
  | finish (st : VoiceState) (tr : List VEvent) (u : String) :
      VoiceReachable st tr → st.alive = some u →
      VoiceReachable { st with alive := none } (tr ++ [VEvent.finish u])

/-- The utterances passed to `speak`, in call order. -/
def speaksOf (tr : List VEvent) : List String :=
  tr.filterMap fun e =>
    match e with
    | VEvent.speak u => some u
    | _ => none

/-- The utterances on which a synthesis thread was started, in start order. -/
def startsOf (tr : List VEvent) : List String :=
  tr.filterMap fun e =>
    match e with
    | VEvent.start u => some u
    | _ => none

/-- The trace restricted to synthesis `start`/`finish` events. -/
def startFinishOf (tr : List VEvent) : List VEvent :=
  tr.filter fun e =>
    match e with
    | VEvent.speak _ => false
    | _ => true

/-- Run a `start`/`finish` trace against a single synthesis slot: a `start`
requires the slot free and fills it, a `finish` requires the slot holding
that very utterance and frees it; returns the final slot, or `none` when the
trace overlaps two syntheses or finishes the wrong one. -/
def altRun (a : Option String) : List VEvent → Option (Option String)
  | [] => some a
  | e :: r =>
    match a, e with
    | none, VEvent.start u => altRun (some u) r
    | some u, VEvent.finish v => if v = u then altRun none r else none
    | _, _ => none

theorem altRun_append (l1 l2 : List VEvent) :
    ∀ a : Option String,
      altRun a (l1 ++ l2) = (altRun a l1).bind fun a' => altRun a' l2 := by
  induction l1 with
  | nil => intro a; rfl
  | cons e r ih =>
    intro a
    match a, e with
    | none, VEvent.start u => simpa [altRun] using ih (some u)
    | some u, VEvent.finish v =>
      by_cases h : v = u <;> simp [altRun, h, ih]
    | none, VEvent.speak u => simp [altRun]
    | none, VEvent.finish u => simp [altRun]
    | some u, VEvent.speak v => simp [altRun]
    | some u, VEvent.start v => simp [altRun]

theorem voice_invariant (st : VoiceState) (tr : List VEvent)
    (h : VoiceReachable st tr) :
    startsOf tr ++ st.queue = speaksOf tr ∧
    altRun none (startFinishOf tr) = some st.alive := by
  induction h with
  | init => exact ⟨rfl, rfl⟩
  | speak u st tr h ih =>
    obtain ⟨h1, h2⟩ := ih
    refine ⟨?_, ?_⟩
    · simp only [startsOf, speaksOf, List.filterMap_append] at *
      rw [← h1]
      simp
    · simpa [startFinishOf, List.filter_append] using h2
  | poll st tr h ih =>
    obtain ⟨h1, h2⟩ := ih
    obtain ⟨q, a⟩ := st
    cases q with
    | nil =>
      simp only [List.append_nil] at h1
      simpa [VoiceEngine.pollTick] using ⟨h1, h2⟩
    | cons u rest =>
      cases a with
      | some x => simpa [VoiceEngine.pollTick] using ⟨h1, h2⟩
      | none =>
        refine ⟨?_, ?_⟩
        · simp only [VoiceEngine.pollTick, startsOf, speaksOf,
            List.filterMap_append] at *
          rw [← h1]
          simp
        · simp only [VoiceEngine.pollTick, startFinishOf,
            List.filter_append] at *
          rw [altRun_append, h2]
          rfl
  | finish st tr u h ha ih =>
    obtain ⟨h1, h2⟩ := ih
    refine ⟨?_, ?_⟩
    · simpa [startsOf, speaksOf, List.filterMap_append] using h1
    · simp only [startFinishOf, List.filter_append] at *
      rw [altRun_append, h2, ha]
      simp [altRun]

theorem alt_finish_mem (u : String) (l : List VEvent)
    (h : altRun (some u) l = some none) : VEvent.finish u ∈ l := by
  cases l with
  | nil => simp [altRun] at h
  | cons e r =>
    cases e with
    | speak w => simp [altRun] at h
    | start w => simp [altRun] at h
    | finish w =>
      by_cases hw : w = u
      · subst hw
        exact List.mem_cons_self _ _
      · simp [altRun, hw] at h

/-- The bitmaps handed to the backend's image-print call, in order. -/
def imageArgsOf (evs : List Event) : List Bitmap :=
  evs.filterMap fun e =>
    match e with
    | Event.escposImage b => some b
    | _ => none

/-- The strings handed to the backend's `escpos.text` call, in order. -/
def textCallsOf (evs : List Event) : List String :=
  evs.filterMap fun e =>
    match e with
    | Event.escposText s => some s
    | _ => none

/-- C4: enqueueing three collections A, B, C with `index = -1` (append) on a
running scheduler leaves the queue `[A, B, C]`, and three ticks of the printer
loop dispatch their backend events in exactly the order A, B, C (each tick
pops the head of the FIFO). -/
theorem append_enqueues_dispatch_fifo (cfg : EscposConfig) (fs : List String)
    (a b c : PrinterCollection) :
    PrinterInterface.queue (PrinterInterface.queue
        (PrinterInterface.queue [] a (-1)) b (-1)) c (-1) = [a, b, c] ∧
    printerRun cfg fs [a, b, c] 3 =
      collectionEvents cfg fs a ++ collectionEvents cfg fs b ++
        collectionEvents cfg fs c := by
  constructor
  · rfl
  · simp [printerRun, printerTick]

/-- C5: from queue state `[A, C]`, `enqueue(B, index = 1)` yields the queue
`[A, B, C]`, so three ticks dispatch backend events in the order A, B, C. -/
theorem insert_at_index_dispatch_order (cfg : EscposConfig) (fs : List String)
    (a b c : PrinterCollection) :
    PrinterInterface.queue [a, c] b 1 = [a, b, c] ∧
    printerRun cfg fs (PrinterInterface.queue [a, c] b 1) 3 =
      collectionEvents cfg fs a ++ collectionEvents cfg fs b ++
        collectionEvents cfg fs c := by
  constructor
  · rfl
  · show printerRun cfg fs [a, b, c] 3 = _
    simp [printerRun, printerTick]

/-- C10: `enqueue(collection, index)` with a non-negative index never fails:
the collection lands at position `min index length` (an out-of-range index
appends at the end) and the queue grows by exactly one. -/
theorem enqueue_nonneg_index_total (q : List PrinterCollection)
    (c : PrinterCollection) (i : Nat) :
    PrinterInterface.queue q c (Int.ofNat i) =
      q.take (min i q.length) ++ c :: q.drop (min i q.length) ∧
    (PrinterInterface.queue q c (Int.ofNat i)).length = q.length + 1 := by
  have hq : PrinterInterface.queue q c (Int.ofNat i) =
      q.take i ++ c :: q.drop i := by
    simp [PrinterInterface.queue, pyInsert]
  constructor
  · rw [hq]
    rcases le_or_lt i q.length with h | h
    · rw [min_eq_left h]
    · rw [min_eq_right (le_of_lt h),
        List.take_of_length_le (le_of_lt h), List.take_length,
        List.drop_of_length_le (le_of_lt h), List.drop_length]
  · rw [hq]
    simp
    omega

theorem textCallsOf_map_line (L : List String) :
    textCallsOf (L.map fun line => Event.escposText (line ++ "\n")) =
      L.map (fun line => line ++ "\n") := by
  induction L with
  | nil => rfl
  | cons x xs ih => simpa [textCallsOf, List.filterMap_cons] using ih

/-- C8: a Text job is split on line breaks and each resulting line becomes one
independent backend `escpos.text` call (the line plus a terminating newline),
in order; in particular content `"line1\nline2"` produces exactly the two
calls for `"line1"` and then `"line2"`. -/
theorem text_job_splits_into_line_calls (cfg : EscposConfig) (content : String)
    (bold : Bool) :
    textCallsOf (PrinterEngine.text cfg content bold) =
      (pySplit content '\n').map (fun line => line ++ "\n") ∧
    textCallsOf (PrinterEngine.text cfg "line1\nline2" bold) =
      ["line1" ++ "\n", "line2" ++ "\n"] := by
  have hgen : ∀ s : String, textCallsOf (PrinterEngine.text cfg s bold) =
      (pySplit s '\n').map (fun line => line ++ "\n") := by
    intro s
    have h1 := textCallsOf_map_line (pySplit s '\n')
    simp only [textCallsOf, List.filterMap_append, PrinterEngine.text,
      setFormatting] at *
    cases bold <;> simpa using h1
  refine ⟨hgen content, ?_⟩
  rw [hgen "line1\nline2"]
  have : pySplit "line1\nline2" '\n' = ["line1", "line2"] := by decide
  rw [this]
  rfl

/-- C6: an Image job dispatched with the configuration's `flip` set hands the
backend's image-print call the 180°-rotated bitmap (horizontal mirror composed
with vertical mirror) of the job's bitmap, and with `flip` unset hands it the
bitmap unchanged; exactly one image-print call is made. -/
theorem image_flip_rotates_bitmap (cfg : EscposConfig) (b : Bitmap)
    (padding : Bool) :
    ∃ evs, PrinterEngine.image cfg (some b) padding = Except.ok evs ∧
      imageArgsOf evs = [if cfg.flip then rotate180 b else b] := by
  refine ⟨_, rfl, ?_⟩
  have hrot : ImageOps.flip (ImageOps.mirror b) = rotate180 b := rfl
  cases hf : cfg.flip <;> cases padding <;>
    simp [imageArgsOf, PrinterEngine.image, PrinterEngine.text, setFormatting,
      hf, hrot, pySplit, splitCharAux]

/-- C7: an Image job whose bitmap is absent/invalid fails with
`InvalidImageObject`; the backend's image-print call is never made for it; the
error is caught inside `__print_content` and logged; and the remaining jobs of
the collection are dispatched exactly as they would be on their own. -/
theorem invalid_image_logged_and_skipped (cfg : EscposConfig) (fs : List String)
    (padding : Bool) (rest : List CollectionItem) :
    PrinterEngine.image cfg none padding =
      Except.error (PrinterError.invalidImageObject invalidImageMsg) ∧
    printContent cfg fs (CollectionItem.printerImage none padding :: rest) =
      (Event.logError (PrinterError.invalidImageObject invalidImageMsg) ::
        (printContent cfg fs rest).1,
       (printContent cfg fs rest).2) ∧
    imageArgsOf
        (printContent cfg fs
          (CollectionItem.printerImage none padding :: rest)).1 =
      imageArgsOf (printContent cfg fs rest).1 := by
  refine ⟨rfl, ?_, ?_⟩ <;>
    simp [printContent, printContentItem, PrinterEngine.image, imageArgsOf]

/-- C9: a Sound job whose file path does not exist raises `FileNotFoundError`
and the playback primitive is never invoked; the playback primitive is invoked
(once, on that path) only when the existence check succeeds. -/
theorem sound_missing_file_never_plays (fs : List String) (filePath : String) :
    (fs.contains filePath = false →
      SoundEngine.play fs filePath =
        Except.error (PrinterError.fileNotFoundError soundMissingMsg)) ∧
    (∀ evs, SoundEngine.play fs filePath = Except.ok evs →
      fs.contains filePath = true ∧ evs = [Event.soundPlay filePath]) := by
  cases h : fs.contains filePath <;> simp at h <;>
    simp [SoundEngine.play, h]

/-- Witness for C9 at a concrete input: the empty file system does not contain
`"alert.mp3"`, so playing it fails with the missing-file error. -/
theorem sound_missing_file_never_plays_witness :
    SoundEngine.play [] "alert.mp3" =
      Except.error (PrinterError.fileNotFoundError soundMissingMsg) :=
  (sound_missing_file_never_plays [] "alert.mp3").1 rfl

theorem printContent_append (cfg : EscposConfig) (fs : List String)
    (l1 l2 : List CollectionItem) (h : (printContent cfg fs l1).2 = none) :
    printContent cfg fs (l1 ++ l2) =
      ((printContent cfg fs l1).1 ++ (printContent cfg fs l2).1,
        (printContent cfg fs l2).2) := by
  induction l1 with
  | nil => simp [printContent]
  | cons item rest ih =>
    cases hit : printContentItem cfg fs item with
    | error e => simp [printContent, hit] at h
    | ok evs =>
      simp only [printContent, hit, List.cons_append, List.append_eq] at h ⊢
      rw [ih h]
      simp

/-- C1 counterexample: dispatching the collection
`[Text("a"), <foreign object>, Text("b")]` sends `"a"` to the backend's
print-line call but never `"b"` — the unrecognized job's
`InvalidPrinterObject` aborts the rest of the collection, contradicting the
claim that both lines reach the backend. -/
theorem invalid_job_aborts_rest_counterexample :
    Event.escposText "a\n" ∈
      (printContent {} []
        [CollectionItem.printerText "a" false, CollectionItem.foreign "Foo",
         CollectionItem.printerText "b" false]).1 ∧
    Event.escposText "b\n" ∉
      (printContent {} []
        [CollectionItem.printerText "a" false, CollectionItem.foreign "Foo",
         CollectionItem.printerText "b" false]).1 := by
  decide

/-- C1 amended: jobs before an unrecognized job dispatch normally; the
unrecognized job raises `InvalidPrinterObject`, which aborts the remaining
jobs of the same collection; the printer loop catches and logs that error
after the collection's partial events, and collections enqueued afterwards
are still dispatched on the following ticks. -/
theorem invalid_job_logged_rest_of_collection_aborted (cfg : EscposConfig)
    (fs : List String) (descr : String) (pre post : List CollectionItem)
    (rest : List PrinterCollection) (n : Nat)
    (hpre : (printContent cfg fs pre).2 = none) :
    printContent cfg fs (pre ++ CollectionItem.foreign descr :: post) =
      ((printContent cfg fs pre).1,
        some (PrinterError.invalidPrinterObject (invalidObjectMsg descr))) ∧
    printerRun cfg fs
        (⟨pre ++ CollectionItem.foreign descr :: post⟩ :: rest) (n + 1) =
      (printContent cfg fs pre).1 ++
        Event.logError
          (PrinterError.invalidPrinterObject (invalidObjectMsg descr)) ::
        printerRun cfg fs rest n := by
  have h1 : printContent cfg fs (pre ++ CollectionItem.foreign descr :: post) =
      ((printContent cfg fs pre).1,
        some (PrinterError.invalidPrinterObject (invalidObjectMsg descr))) := by
    rw [printContent_append cfg fs pre _ hpre]
    simp [printContent, printContentItem]
  refine ⟨h1, ?_⟩
  simp [printerRun, printerTick, collectionEvents, h1]

/-- Witness for C1's amended claim at a concrete input: the collection
`[Text("a"), <foreign "Foo">, Text("b")]` followed by the collection
`[Text("c")]` over two ticks. -/
theorem invalid_job_logged_aborted_witness :
    printContent {} []
        ([CollectionItem.printerText "a" false] ++
          CollectionItem.foreign "Foo" :: [CollectionItem.printerText "b" false]) =
      ((printContent {} [] [CollectionItem.printerText "a" false]).1,
        some (PrinterError.invalidPrinterObject (invalidObjectMsg "Foo"))) ∧
    printerRun {} []
        (⟨[CollectionItem.printerText "a" false] ++
            CollectionItem.foreign "Foo" ::
              [CollectionItem.printerText "b" false]⟩ ::
          [⟨[CollectionItem.printerText "c" false]⟩]) (1 + 1) =
      (printContent {} [] [CollectionItem.printerText "a" false]).1 ++
        Event.logError
          (PrinterError.invalidPrinterObject (invalidObjectMsg "Foo")) ::
        printerRun {} [] [⟨[CollectionItem.printerText "c" false]⟩] 1 :=
  invalid_job_logged_rest_of_collection_aborted {} [] "Foo"
    [CollectionItem.printerText "a" false]
    [CollectionItem.printerText "b" false]
    [⟨[CollectionItem.printerText "c" false]⟩] 1 (by decide)

/-- C2 counterexample: starting a scheduler and calling `stop()` twice in
succession raises on the second call — `stop()` sets the task handle to
`None`, so the second `self._task.cancel(...)` is an `AttributeError`. -/
theorem stop_twice_raises_counterexample :
    (SchedulerState.start {}).running = true ∧
    ∃ st1, SchedulerState.stop (SchedulerState.start {}) = Except.ok st1 ∧
      SchedulerState.stop st1 =
        Except.error (PyError.attributeError
          "'NoneType' object has no attribute 'cancel'") :=
  ⟨rfl, ⟨_, rfl, rfl⟩⟩

/-- C2 amended: on a scheduler whose task handle exists (as after `start()`),
the first `stop()` succeeds and leaves the scheduler Stopped with the task
handle cleared; a second `stop()` then raises `AttributeError`
(`None` has no `cancel`), so `stop()` is not idempotent. -/
theorem stop_once_stops_then_second_raises (st : SchedulerState)
    (h : st.task.isSome) :
    ∃ st1, SchedulerState.stop st = Except.ok st1 ∧
      st1.running = false ∧ st1.task = none ∧
      SchedulerState.stop st1 =
        Except.error (PyError.attributeError
          "'NoneType' object has no attribute 'cancel'") := by
  cases htask : st.task with
  | none => rw [htask] at h; simp at h
  | some t =>
    refine ⟨⟨false, none⟩, ?_, rfl, rfl, rfl⟩
    simp [SchedulerState.stop, htask]

/-- Witness for C2's amended claim: a freshly started scheduler. -/
theorem stop_once_stops_then_second_raises_witness :
    ∃ st1, SchedulerState.stop (SchedulerState.start {}) = Except.ok st1 ∧
      st1.running = false ∧ st1.task = none ∧
      SchedulerState.stop st1 =
        Except.error (PyError.attributeError
          "'NoneType' object has no attribute 'cancel'") :=
  stop_once_stops_then_second_raises (SchedulerState.start {}) rfl

/-- C3: on every reachable state and trace of the voice worker, (1) the
utterances started so far followed by the pending queue are exactly the
`speak` calls in FIFO order — synthesis starts in FIFO order; (2) the
`start`/`finish` subtrace runs a single synthesis slot — starts and finishes
strictly alternate, so at most one synthesis unit is ever active and a poll
tick that observes an active unit starts nothing; (3) explicitly, between any
two `start` events the first one's `finish` must occur — synthesis of a later
utterance never starts while an earlier one is unfinished. -/
theorem voice_fifo_never_overlaps (st : VoiceState) (tr : List VEvent)
    (h : VoiceReachable st tr) :
    startsOf tr ++ st.queue = speaksOf tr ∧
    altRun none (startFinishOf tr) = some st.alive ∧
    ∀ l1 u l2 v l3,
      startFinishOf tr = l1 ++ VEvent.start u :: l2 ++ VEvent.start v :: l3 →
      VEvent.finish u ∈ l2 := by
  obtain ⟨h1, h2⟩ := voice_invariant st tr h
  refine ⟨h1, h2, ?_⟩
  intro l1 u l2 v l3 hdec
  rw [hdec,
    altRun_append (l1 ++ (VEvent.start u :: l2)) (VEvent.start v :: l3)] at h2
  rcases Option.bind_eq_some.mp h2 with ⟨a1, ha1, h3⟩
  rw [altRun_append l1 (VEvent.start u :: l2)] at ha1
  rcases Option.bind_eq_some.mp ha1 with ⟨a2, _, h4⟩
  cases a2 with
  | some w => simp [altRun] at h4
  | none =>
    cases a1 with
    | some w => simp [altRun] at h3
    | none => exact alt_finish_mem u l2 h4

/-- An example voice-worker history: `speak("x")`, `speak("y")`, a poll tick
(starts `"x"`), completion of `"x"`, and another poll tick (starts `"y"`). -/
def voiceExampleTrace : List VEvent :=
  [VEvent.speak "x", VEvent.speak "y", VEvent.start "x", VEvent.finish "x",
   VEvent.start "y"]

theorem voiceExampleReachable :
    VoiceReachable ⟨[], some "y"⟩ voiceExampleTrace := by
  have h0 := VoiceReachable.init
  have h1 := VoiceReachable.speak "x" _ _ h0
  have h2 := VoiceReachable.speak "y" _ _ h1
  have h3 := VoiceReachable.poll _ _ h2
  have h4 := VoiceReachable.finish _ _ "x" h3 rfl
  have h5 := VoiceReachable.poll _ _ h4
  exact h5

/-- Witness for C3 at a concrete reachable state: after `speak("x")`,
`speak("y")` and two poll ticks separated by the completion of `"x"`. -/
theorem voice_fifo_never_overlaps_witness :
    startsOf voiceExampleTrace ++ ([] : List String) =
        speaksOf voiceExampleTrace ∧
    altRun none (startFinishOf voiceExampleTrace) = some (some "y") ∧
    ∀ l1 u l2 v l3,
      startFinishOf voiceExampleTrace =
        l1 ++ VEvent.start u :: l2 ++ VEvent.start v :: l3 →
      VEvent.finish u ∈ l2 :=
  voice_fifo_never_overlaps ⟨[], some "y"⟩ voiceExampleTrace
    voiceExampleReachable

end TikTokPrinter
